import Mathlib

/-!
Shallow embedding of the platform-resolving launcher
`packaging/pypi/tally_cli/main.py` of wharflab/tally.

The launcher reads the host environment (OS name, machine architecture,
its own install directory, the filesystem, the argument vector) and either
spawns the platform-specific `tally` binary, propagating its exit code, or
prints a diagnostic to stderr and returns 1.  The host environment is
modelled as an explicit structure; `main` becomes a pure function from the
host environment to a trace recording the stderr output, the spawn
attempts, and the final result (a return code, or a propagated exception
from the spawn mechanism).
-/

namespace TallyCli

/-- Fixed issue-tracker URL, line 6 of the source:
`ISSUE_URL = "https://github.com/wharflab/tally/issues/new"`. -/
def ISSUE_URL : String := "https://github.com/wharflab/tally/issues/new"

/-- Fixed architecture normalization table, lines 7-10 of the source:
`ARCH_MAPPING = \x7b'amd64': 'x86_64', 'aarch64': 'arm64'\x7d`,
modelled as an association list. -/
def ARCH_MAPPING : List (String × String) :=
  [("amd64", "x86_64"), ("aarch64", "arm64")]

/-- Python `d.get(k, dflt)` on a string-keyed dictionary given as an
association list: the value of the first matching key, else the default. -/
def dictGet (d : List (String × String)) (k dflt : String) : String :=
  match d.find? (fun p => p.1 == k) with
  | some p => p.2
  | none => dflt

/-- The host environment as the launcher observes it:
* `system`: what `platform.system()` reports;
* `machine`: what `platform.machine()` reports;
* `dirname`: `os.path.dirname(__file__)`, the directory containing the
  launcher's own installed module;
* `cwd`: the current working directory (never read by the source, kept in
  the model so that independence from it can be stated);
* `isFile`: `os.path.isfile`, whether a regular file exists at a path;
* `executableBit`: whether the executable permission bit is set at a path
  (never read by the source, kept in the model so that independence from
  it can be stated);
* `argv`: `sys.argv`, the program name followed by the invocation
  arguments;
* `run`: `subprocess.run` followed by `.returncode`, as a function from
  the full command vector to either the child's exit status or the
  exception the spawn mechanism raises (modelled as its message). -/
structure Host where
  system : String
  machine : String
  dirname : String
  cwd : String
  isFile : String → Bool
  executableBit : String → Bool
  argv : List String
  run : List String → Except String Int

/-- Python `str.lower()`, modelled character by character (the platform
names involved are ASCII). -/
def strLower (s : String) : String := ⟨s.data.map Char.toLower⟩

/-- Line 13: `os_name = platform.system().lower()`. -/
def osName (h : Host) : String := strLower h.system

/-- Line 14: `arch = platform.machine().lower()`, the raw architecture
name used as the lookup key. -/
def rawArch (h : Host) : String := strLower h.machine

/-- Line 15: `arch = ARCH_MAPPING.get(arch, arch)`. -/
def archName (h : Host) : String := dictGet ARCH_MAPPING (rawArch h) (rawArch h)

/-- Line 16: `ext = os_name == "windows" and ".exe" or ""`.  Since
`".exe"` is truthy, Python's and/or chain is the plain conditional. -/
def ext (h : Host) : String := if osName h == "windows" then ".exe" else ""

/-- Line 17: `subfolder = f"tally-\x7bos_name\x7d-\x7barch\x7d"`. -/
def subfolder (h : Host) : String := "tally-" ++ osName h ++ "-" ++ archName h

/-- POSIX `b.startswith(sep)` for the one-character separator: whether the
first character of `s` is `/`. -/
def isAbs (s : String) : Bool := s.data.head? == some '/'

/-- POSIX `path.endswith(sep)`: whether the last character of `s` is `/`. -/
def endsWithSep (s : String) : Bool := s.data.getLast? == some '/'

/-- One step of POSIX `os.path.join`: an absolute component resets the
path; otherwise the component is appended, with a separator inserted
unless the path so far is empty or already ends with the separator. -/
def joinOne (path b : String) : String :=
  if isAbs b then b
  else if (path == "") || endsWithSep path then path ++ b
  else path ++ "/" ++ b

/-- POSIX `os.path.join(a, *ps)`. -/
def pathJoin (a : String) (ps : List String) : String := ps.foldl joinOne a

/-- Line 18: `executable = os.path.join(os.path.dirname(__file__), "bin",
subfolder, "tally"+ext)`. -/
def executablePath (h : Host) : String :=
  pathJoin h.dirname ["bin", subfolder h, "tally" ++ ext h]

/-- Line 20: the f-string printed to stderr when the binary is missing. -/
def errMessage (p : String) : String :=
  "Couldn\x27t find binary " ++ p ++ ". Please create an issue: " ++ ISSUE_URL

/-- Everything one launcher invocation does, observably: the lines written
to stderr, the command vectors handed to the spawn mechanism, and the
result — `Except.ok` a return code, or `Except.error` a propagated
exception from the spawn mechanism. -/
structure Trace where
  stderrLines : List String
  spawned : List (List String)
  result : Except String Int

/-- Lines 12-24 of the source, `def main()`: resolve the platform, build
the binary path, check that a regular file exists there (line 19; print
to stderr and return 1 if not, lines 20-21), otherwise run
`[executable] + sys.argv[1:]` and return the child's return code
(lines 23-24); an exception raised by the spawn mechanism propagates. -/
def main (h : Host) : Trace :=
  if !(h.isFile (executablePath h)) then
    { stderrLines := [errMessage (executablePath h)],
      spawned := [],
      result := Except.ok 1 }
  else
    { stderrLines := [],
      spawned := [executablePath h :: h.argv.drop 1],
      result := h.run (executablePath h :: h.argv.drop 1) }

/-- The string `sub` occurs as a contiguous substring of `s`. -/
def strContains (s sub : String) : Prop := ∃ pre post : String, s = pre ++ sub ++ post

/-- A Linux/amd64 host whose binary is installed where the launcher looks
for it, invoked with three arguments; the child exits with status 42. -/
def demoHost : Host :=
  { system := "Linux"
    machine := "amd64"
    dirname := "/opt/tally_cli"
    cwd := "/home/user"
    isFile := fun p => p == "/opt/tally_cli/bin/tally-linux-x86_64/tally"
    executableBit := fun _ => true
    argv := ["tally", "--flag", "value", "positional"]
    run := fun _ => Except.ok 42 }

/-- A host (here Linux/riscv64) on which no file exists at the resolved
binary path. -/
def missingHost : Host :=
  { system := "Linux"
    machine := "riscv64"
    dirname := "/opt/tally_cli"
    cwd := "/"
    isFile := fun _ => false
    executableBit := fun _ => false
    argv := ["tally"]
    run := fun _ => Except.ok 0 }

/-- Like `demoHost`, but the child exits with status 1. -/
def childFailHost : Host :=
  { demoHost with run := fun _ => Except.ok 1 }

/-- Like `demoHost`, but the child exits with status 0. -/
def childOkHost : Host :=
  { demoHost with run := fun _ => Except.ok 0 }

/-- Like `demoHost`, but the binary file is not executable and the spawn
mechanism raises an exception. -/
def permHost : Host :=
  { demoHost with
    executableBit := fun _ => false
    run := fun _ => Except.error ("PermissionError") }

/-- Like `demoHost`, but the binary file is not executable (the spawn
itself still succeeds). -/
def noExecHost : Host :=
  { demoHost with executableBit := fun _ => false }

/-- A string whose first character is not the separator is not absolute. -/
theorem isAbs_eq_false (s : String) (c : Char) (hc : s.data.head? = some c)
    (hne : (c == '/') = false) : isAbs s = false := by
  unfold isAbs
  rw [hc]
  exact hne

/-- Appending a nonempty string on the right determines the last character. -/
theorem endsWithSep_append (s t : String) (ht : t.data ≠ []) :
    endsWithSep (s ++ t) = endsWithSep t := by
  unfold endsWithSep
  rw [String.data_append, List.getLast?_append]
  cases hg : t.data.getLast? with
  | none => exact absurd (List.getLast?_eq_none_iff.mp hg) ht
  | some c => rfl

/-- An append is nonempty when its right part is. -/
theorem append_data_ne_nil_right (s t : String) (ht : t.data ≠ []) :
    (s ++ t).data ≠ [] := by
  rw [String.data_append]
  intro hc
  exact ht (List.append_eq_nil.mp hc).2

/-- A nonempty string is not `==` the empty string. -/
theorem beq_empty_eq_false (s : String) (hs : s.data ≠ []) : (s == "") = false := by
  apply beq_eq_false_iff_ne.mpr
  intro he
  exact hs (by rw [he])

/-- The subfolder name always begins with the character `t` of `tally-`. -/
theorem subfolder_head (h : Host) : (subfolder h).data.head? = some 't' := by
  simp only [subfolder, String.data_append, List.head?_append]
  rfl

/-- The binary file name always begins with the character `t` of `tally`. -/
theorem tallyExt_head (h : Host) : ("tally" ++ ext h).data.head? = some 't' := by
  simp only [String.data_append, List.head?_append]
  rfl

/-- The subfolder name is never the empty string. -/
theorem subfolder_data_ne_nil (h : Host) : (subfolder h).data ≠ [] := by
  intro hc
  have hh := subfolder_head h
  rw [hc] at hh
  exact Option.noConfusion hh

/-- The generic join step inserts the separator when the component is
relative and the path so far is nonempty without a trailing separator. -/
theorem joinOne_sep (path b : String) (hb : isAbs b = false)
    (h1 : (path == "") = false) (h2 : endsWithSep path = false) :
    joinOne path b = path ++ "/" ++ b := by
  unfold joinOne
  rw [hb, h1, h2]
  rfl

/-- Claim C1: for every exit status the child process terminates with,
when the resolved binary path exists the launcher's own exit status
equals the child's exit status exactly. -/
theorem C1_exit_propagation (h : Host) (rc : Int)
    (hf : h.isFile (executablePath h) = true)
    (hr : h.run (executablePath h :: h.argv.drop 1) = Except.ok rc) :
    (main h).result = Except.ok rc := by
  simp only [List.drop_one] at hr
  simp [main, hf, hr]

/-- Claim C1 witness: on `demoHost` the child exits 42 and so does the
launcher. -/
theorem C1_exit_propagation_witness : (main demoHost).result = Except.ok 42 :=
  C1_exit_propagation demoHost 42 rfl rfl

/-- Claim C2: whenever no regular file exists at the resolved binary path,
the launcher returns the non-zero status 1, writes to stderr a diagnostic
containing both the attempted path and the fixed issue-tracker URL, and
spawns nothing. -/
theorem C2_missing_binary (h : Host)
    (hf : h.isFile (executablePath h) = false) :
    (main h).result = Except.ok 1 ∧ ((1 : Int) ≠ 0) ∧
    (main h).spawned = [] ∧
    (main h).stderrLines = [errMessage (executablePath h)] ∧
    strContains (errMessage (executablePath h)) (executablePath h) ∧
    strContains (errMessage (executablePath h)) ISSUE_URL := by
  refine ⟨by simp [main, hf], by decide, by simp [main, hf], by simp [main, hf],
    ⟨"Couldn\x27t find binary ", ". Please create an issue: " ++ ISSUE_URL, ?_⟩,
    ⟨"Couldn\x27t find binary " ++ executablePath h ++ ". Please create an issue: ", "", ?_⟩⟩
  · simp only [errMessage, String.append_assoc]
  · simp only [errMessage, String.append_empty]

/-- Claim C2 witness: on `missingHost` the launcher returns 1 and spawns
nothing. -/
theorem C2_missing_binary_witness :
    (main missingHost).result = Except.ok 1 ∧ (main missingHost).spawned = [] := by
  have hw := C2_missing_binary missingHost rfl
  exact ⟨hw.1, hw.2.2.1⟩

/-- Claim C3: the binary path is the join of the launcher's own install
directory with `bin`, `tally-<os_name>-<arch_name>` and
`tally<extension>`; under the normal conditions that the install
directory is nonempty and no component involved ends in a separator, it
is the explicit slash-separated concatenation, and it never depends on
the current working directory. -/
theorem C3_binary_path (h : Host)
    (h1 : (h.dirname == "") = false)
    (h2 : endsWithSep h.dirname = false)
    (h3 : endsWithSep (subfolder h) = false) :
    executablePath h = pathJoin h.dirname ["bin", subfolder h, "tally" ++ ext h] ∧
    subfolder h = "tally-" ++ osName h ++ "-" ++ archName h ∧
    executablePath h = h.dirname ++ "/" ++ "bin" ++ "/" ++ subfolder h ++ "/" ++ ("tally" ++ ext h) ∧
    (∀ c : String, executablePath { h with cwd := c } = executablePath h) := by
  refine ⟨rfl, rfl, ?_, fun c => rfl⟩
  have e1 : joinOne h.dirname ("bin") = h.dirname ++ "/" ++ "bin" :=
    joinOne_sep _ _ (by decide) h1 h2
  have hne2 : ((h.dirname ++ "/" ++ "bin") == "") = false :=
    beq_empty_eq_false _ (append_data_ne_nil_right _ _ (by decide))
  have hsep2 : endsWithSep (h.dirname ++ "/" ++ "bin") = false := by
    rw [endsWithSep_append (h.dirname ++ "/") ("bin") (by decide)]
    decide
  have e2 : joinOne (h.dirname ++ "/" ++ "bin") (subfolder h) =
      h.dirname ++ "/" ++ "bin" ++ "/" ++ subfolder h :=
    joinOne_sep _ _ (isAbs_eq_false _ 't' (subfolder_head h) (by decide)) hne2 hsep2
  have hne3 : ((h.dirname ++ "/" ++ "bin" ++ "/" ++ subfolder h) == "") = false :=
    beq_empty_eq_false _ (append_data_ne_nil_right _ _ (subfolder_data_ne_nil h))
  have hsep3 : endsWithSep (h.dirname ++ "/" ++ "bin" ++ "/" ++ subfolder h) = false := by
    rw [endsWithSep_append _ _ (subfolder_data_ne_nil h)]
    exact h3
  have e3 : joinOne (h.dirname ++ "/" ++ "bin" ++ "/" ++ subfolder h) ("tally" ++ ext h) =
      h.dirname ++ "/" ++ "bin" ++ "/" ++ subfolder h ++ "/" ++ ("tally" ++ ext h) :=
    joinOne_sep _ _ (isAbs_eq_false _ 't' (tallyExt_head h) (by decide)) hne3 hsep3
  calc executablePath h
      = joinOne (joinOne (joinOne h.dirname ("bin")) (subfolder h)) ("tally" ++ ext h) := rfl
    _ = joinOne (joinOne (h.dirname ++ "/" ++ "bin") (subfolder h)) ("tally" ++ ext h) := by
        rw [e1]
    _ = joinOne (h.dirname ++ "/" ++ "bin" ++ "/" ++ subfolder h) ("tally" ++ ext h) := by
        rw [e2]
    _ = h.dirname ++ "/" ++ "bin" ++ "/" ++ subfolder h ++ "/" ++ ("tally" ++ ext h) := e3

/-- Claim C3 witness: on `demoHost` the resolved path is the expected
concrete location under the install directory. -/
theorem C3_binary_path_witness :
    executablePath demoHost = "/opt/tally_cli/bin/tally-linux-x86_64/tally" := by
  have hw := (C3_binary_path demoHost (by decide) (by decide) (by decide)).2.2.1
  exact hw.trans (by decide)

/-- Claim C4: the normalization table maps exactly `amd64` to `x86_64`
and `aarch64` to `arm64`, the resolved architecture is the table lookup
of the raw architecture with the raw value as default, and every string
absent from the table passes through unchanged. -/
theorem C4_arch_normalization :
    ARCH_MAPPING = [("amd64", "x86_64"), ("aarch64", "arm64")] ∧
    (∀ h : Host, archName h = dictGet ARCH_MAPPING (rawArch h) (rawArch h)) ∧
    dictGet ARCH_MAPPING ("amd64") ("amd64") = "x86_64" ∧
    dictGet ARCH_MAPPING ("aarch64") ("aarch64") = "arm64" ∧
    (∀ s : String, s ≠ "amd64" → s ≠ "aarch64" → dictGet ARCH_MAPPING s s = s) := by
  refine ⟨rfl, fun h => rfl, rfl, rfl, fun s hs1 hs2 => ?_⟩
  have b1 : (("amd64" : String) == s) = false :=
    beq_eq_false_iff_ne.mpr (fun he => hs1 he.symm)
  have b2 : (("aarch64" : String) == s) = false :=
    beq_eq_false_iff_ne.mpr (fun he => hs2 he.symm)
  simp [dictGet, ARCH_MAPPING, List.find?, b1, b2]

/-- Claim C4 witness: the unmapped architecture `riscv64` passes through
unchanged. -/
theorem C4_arch_normalization_witness :
    dictGet ARCH_MAPPING ("riscv64") ("riscv64") = "riscv64" :=
  C4_arch_normalization.2.2.2.2 ("riscv64") (by decide) (by decide)

/-- Claim C5: the spawned child receives precisely the launcher's
invocation arguments (everything after the program name), in order,
unmodified, after the executable path itself. -/
theorem C5_argument_forwarding (h : Host) (prog : String) (args : List String)
    (ha : h.argv = prog :: args)
    (hf : h.isFile (executablePath h) = true) :
    (main h).spawned = [executablePath h :: args] := by
  simp [main, hf, ha]

/-- Claim C5 witness: on `demoHost` the three arguments are forwarded
verbatim and in order. -/
theorem C5_argument_forwarding_witness :
    (main demoHost).spawned = [executablePath demoHost :: ["--flag", "value", "positional"]] :=
  C5_argument_forwarding demoHost ("tally") ["--flag", "value", "positional"] rfl rfl

/-- Claim C6: the extension is `.exe` if and only if the resolved OS name
is `windows`, and is empty otherwise. -/
theorem C6_extension_iff (h : Host) :
    (ext h = ".exe" ↔ osName h = "windows") ∧ (osName h ≠ "windows" → ext h = "") := by
  by_cases hw : osName h = "windows"
  · simp [ext, hw]
  · simp [ext, hw]

/-- Claim C6 witness: on the Linux `demoHost` the extension is empty. -/
theorem C6_extension_iff_witness : ext demoHost = "" :=
  (C6_extension_iff demoHost).2 (by decide)

/-- Claim C7: the resolved OS name is the lower-cased host-reported OS
name, the normalization-table lookup key is the lower-cased host-reported
architecture, and in particular a host reporting `Windows` resolves to
`windows`. -/
theorem C7_lowercasing (h : Host) :
    osName h = strLower h.system ∧ rawArch h = strLower h.machine ∧
    archName h = dictGet ARCH_MAPPING (strLower h.machine) (strLower h.machine) ∧
    osName { h with system := "Windows" } = "windows" :=
  ⟨rfl, rfl, rfl, rfl⟩

/-- Claim C7 witness: `demoHost` reports `Linux` and resolves to `linux`. -/
theorem C7_lowercasing_witness : osName demoHost = "linux" :=
  ((C7_lowercasing demoHost).1).trans (by decide)

/-- Claim C8 counterexample: the missing-binary exit status 1 is NOT
distinguishable from every child exit status — a child that runs and
exits 1 produces exactly the same launcher result as a missing binary. -/
theorem C8_counterexample :
    (main missingHost).result = Except.ok 1 ∧ (main missingHost).spawned = [] ∧
    (main childFailHost).result = Except.ok 1 ∧ (main childFailHost).spawned ≠ [] :=
  ⟨rfl, rfl, rfl, by decide⟩

/-- Claim C8 (amended): the launcher's exit code is 1 when the target
binary cannot be located, which is non-zero and therefore distinct from
the status observed when the child ran and succeeded; it is not distinct
from a child that ran and exited 1. -/
theorem C8_missing_binary_exit (h : Host)
    (hf : h.isFile (executablePath h) = false) :
    (main h).result = Except.ok 1 ∧ ((1 : Int) ≠ 0) ∧
    (∀ h2 : Host, h2.isFile (executablePath h2) = true →
      h2.run (executablePath h2 :: h2.argv.drop 1) = Except.ok 0 →
      (main h2).result ≠ (main h).result) := by
  have hm : (main h).result = Except.ok 1 := by simp [main, hf]
  refine ⟨hm, by decide, fun h2 hf2 hr2 => ?_⟩
  simp only [List.drop_one] at hr2
  have hm2 : (main h2).result = Except.ok 0 := by simp [main, hf2, hr2]
  rw [hm, hm2]
  intro hc
  exact absurd (Except.ok.inj hc) (by decide)

/-- Claim C8 witness (amended form): on `missingHost` the exit code is 1,
distinct from the exit code of a successful child run. -/
theorem C8_missing_binary_exit_witness :
    (main missingHost).result = Except.ok 1 ∧
    (main childOkHost).result ≠ (main missingHost).result := by
  have hw := C8_missing_binary_exit missingHost rfl
  exact ⟨hw.1, hw.2.2 childOkHost rfl rfl⟩

/-- Claim C9: when the file exists but the spawn mechanism fails, the
error propagates to the caller unchanged — no diagnostic is written and
the result is not converted into the missing-binary status 1. -/
theorem C9_spawn_error_propagation (h : Host) (e : String)
    (hf : h.isFile (executablePath h) = true)
    (hr : h.run (executablePath h :: h.argv.drop 1) = Except.error e) :
    (main h).result = Except.error e ∧ (main h).stderrLines = [] ∧
    (main h).result ≠ Except.ok 1 := by
  simp only [List.drop_one] at hr
  have h1 : (main h).result = Except.error e := by simp [main, hf, hr]
  refine ⟨h1, by simp [main, hf], ?_⟩
  rw [h1]
  intro hc
  exact Except.noConfusion hc

/-- Claim C9 witness: on `permHost` the spawn raises `PermissionError`,
which the launcher propagates unchanged with no diagnostic. -/
theorem C9_spawn_error_propagation_witness :
    (main permHost).result = Except.error ("PermissionError") ∧
    (main permHost).stderrLines = [] := by
  have hw := C9_spawn_error_propagation permHost ("PermissionError") rfl rfl
  exact ⟨hw.1, hw.2.1⟩

/-- Claim C10: whenever the spawn step is reached the child's argument
vector is the resolved binary path followed by the invocation arguments,
and the gate tests only `isFile` — the launcher's behaviour is invariant
under the executable permission bit. -/
theorem C10_spawn_vector_no_exec_check (h : Host)
    (hf : h.isFile (executablePath h) = true) :
    (main h).spawned = [executablePath h :: h.argv.drop 1] ∧
    (∀ b : String → Bool, main { h with executableBit := b } = main h) :=
  ⟨by simp [main, hf], fun b => rfl⟩

/-- Claim C10 witness: on `noExecHost` the binary file is not executable,
yet the launcher still spawns it, with the path as the leading element. -/
theorem C10_spawn_vector_no_exec_check_witness :
    (main noExecHost).spawned = [executablePath noExecHost :: ["--flag", "value", "positional"]] ∧
    noExecHost.executableBit (executablePath noExecHost) = false := by
  have hw := C10_spawn_vector_no_exec_check noExecHost rfl
  exact ⟨hw.1, rfl⟩

end TallyCli
